import Mathlib

/-!
Verification of the MusicGen backend gateway (src/server.ts) against its
specification. The server is shallowly embedded: each Express handler becomes a
pure Lean function over explicit store state, with outcomes of external calls
(identity provider, Supabase store, Suno vendor API) passed in as oracle
arguments. HTTP responses are modelled by status codes plus structured bodies,
and side effects (vendor request issued, store rows written) are recorded in
the result so that "no vendor call is made" style properties are statable.
-/

namespace MusicGen

/-- A row of the `users` table, with the fields the handlers read and write
(server.ts selects `*` but only these fields are consulted). -/
structure UserRow where
  id : String
  email : String
  current_plan : String
  total_points : Int
  used_points_today : Int
  total_generations : Int
  display_name : String
deriving DecidableEq, Repr

/-- The `DAILY_LIMITS` plan table from server.ts lines 81-86, kept as an
association list to mirror the JS object. -/
def DAILY_LIMITS : List (String × Nat) :=
  [("free", 2), ("starter", 10), ("pro", 25), ("unlimited", 100)]

/-- `DAILY_LIMITS[user.current_plan] || 2` (server.ts line 141): look the plan
up in the table, defaulting to 2 for an unknown plan. (The `||` default would
also replace a stored limit of 0, but the table holds no zero.) -/
def dailyLimit (plan : String) : Nat :=
  match (DAILY_LIMITS.find? (fun e => e.1 == plan)).map (fun e => e.2) with
  | some n => n
  | none => 2

/-- The request body of POST /api/generate-music (server.ts line 118). -/
structure GenBody where
  genre : String
  mood : String
  prompt : Option String
  duration : Nat
  isInstrumental : Bool
  customLyrics : Option String
deriving DecidableEq, Repr

/-- Outcome of the axios call to the vendor generation endpoint:
either the promise rejects, or it resolves and `data?.data?.taskId`
is present or absent. -/
inductive VendorOutcome where
  | throws (msg : String)
  | ok (taskId : Option String)
deriving DecidableEq, Repr

/-- The JSON payload sent to the vendor at server.ts lines 169-187 (the fields
the handler computes; customMode/model/callBackUrl are constants). -/
structure VendorRequest where
  instrumental : Bool
  prompt : String
  style : String
  title : String
deriving DecidableEq, Repr

/-- Response bodies the generate-music handler can produce. -/
inductive GenResp where
  | userNotFound
  | dailyLimitReached (limit : Nat) (used : Int)
  | noCreditsRemaining
  | generationFailed (msg : String)
  | success (task_id : String) (remaining_credits : Int)
deriving DecidableEq, Repr

/-- Result of one generate-music request: HTTP status, body, the vendor
request if (and only if) the vendor call was issued, and the users table
after the request. -/
structure GenResult where
  status : Nat
  resp : GenResp
  vendorReq : Option VendorRequest
  users : List UserRow
deriving DecidableEq, Repr

/-- `.from('users').select('*').eq('id', uid).single()`. -/
def findUser (users : List UserRow) (uid : String) : Option UserRow :=
  users.find? (fun u => u.id == uid)

/-- `.from('users').update(f).eq('id', uid)`. -/
def updateUserRow (users : List UserRow) (uid : String) (f : UserRow → UserRow) :
    List UserRow :=
  users.map (fun u => if u.id == uid then f u else u)

/-- JavaScript `String.prototype.trim`: drop leading and trailing whitespace
(modelled on the character list so it evaluates by reduction). -/
def jsTrim (s : String) : String :=
  ⟨((s.data.dropWhile Char.isWhitespace).reverse.dropWhile Char.isWhitespace).reverse⟩

/-- server.ts line 161: `` `${genre} music with ${mood} vibes. ${prompt || ''}`.trim() ``. -/
def fullPromptOf (body : GenBody) : String :=
  jsTrim (body.genre ++ (" music with ") ++ body.mood ++ (" vibes. ") ++ body.prompt.getD (""))

/-- server.ts line 176: `prompt: customLyrics?.trim() || fullPrompt` — the
trimmed custom lyrics when present and nonempty after trimming, else the
genre/mood template. -/
def sunoPrompt (body : GenBody) : String :=
  match body.customLyrics with
  | some cl => if jsTrim cl == ("") then fullPromptOf body else jsTrim cl
  | none => fullPromptOf body

/-- The POST /api/generate-music handler (server.ts lines 116-224), after
authentication. `vendor` is the outcome the vendor would return if called;
`updateFails` says whether the single credit-deduction update errors
(server.ts lines 198-209 ignore that error beyond logging). -/
def generateMusic (users : List UserRow) (uid : String) (body : GenBody)
    (vendor : VendorOutcome) (updateFails : Bool) : GenResult :=
  match findUser users uid with
  | none => ⟨404, .userNotFound, none, users⟩
  | some user =>
    let limit := dailyLimit user.current_plan
    if (limit : Int) ≤ user.used_points_today then
      ⟨403, .dailyLimitReached limit user.used_points_today, none, users⟩
    else if user.total_points ≤ 0 then
      ⟨403, .noCreditsRemaining, none, users⟩
    else
      let vreq : VendorRequest :=
        ⟨body.isInstrumental, sunoPrompt body,
         body.genre ++ (", ") ++ body.mood,
         body.genre ++ (" ") ++ body.mood ++ (" Track")⟩
      match vendor with
      | .throws msg => ⟨500, .generationFailed msg, some vreq, users⟩
      | .ok none =>
          ⟨500, .generationFailed ("No task ID returned from Suno API"), some vreq, users⟩
      | .ok (some tid) =>
          let users2 :=
            if updateFails then users
            else updateUserRow users uid (fun u =>
              { u with
                total_points := user.total_points - 1,
                used_points_today := user.used_points_today + 1,
                total_generations := user.total_generations + 1 })
          ⟨200, .success tid (user.total_points - 1), some vreq, users2⟩

/-! ## Routing and the authentication guard -/

/-- HTTP methods used by the app's routes. -/
inductive Method where
  | get | post | patchM | deleteM
deriving DecidableEq, Repr

/-- The routes registered on the Express app (server.ts lines 89-497),
with path parameters captured. -/
inductive Route where
  | health
  | root
  | generateMusicR
  | taskStatus (taskId : String)
  | saveTrack
  | listTracks
  | getProfile
  | patchProfile
  | feed
  | publishTrackR (trackId : String)
  | likeTrackR (trackId : String)
  | deleteTrackR (trackId : String)
deriving DecidableEq, Repr

/-- Express route matching for the registered paths, on path segments. -/
def matchRoute : Method → List String → Option Route
  | .get, ["health"] => some .health
  | .get, [] => some .root
  | .post, ["api", "generate-music"] => some .generateMusicR
  | .get, ["api", "task", tid] => some (.taskStatus tid)
  | .post, ["api", "tracks"] => some .saveTrack
  | .get, ["api", "tracks"] => some .listTracks
  | .get, ["api", "profile"] => some .getProfile
  | .patchM, ["api", "profile"] => some .patchProfile
  | .get, ["api", "feed"] => some .feed
  | .post, ["api", "tracks", tid, "publish"] => some (.publishTrackR tid)
  | .post, ["api", "tracks", tid, "like"] => some (.likeTrackR tid)
  | .deleteM, ["api", "tracks", tid] => some (.deleteTrackR tid)
  | _, _ => none

/-- Which routes are registered with the `authenticateUser` middleware.
GET /health, GET / and GET /api/feed (server.ts line 371, commented
"no auth required") are the only routes without it. -/
def requiresAuth : Route → Bool
  | .health => false
  | .root => false
  | .feed => false
  | _ => true

/-- `authHeader && authHeader.startsWith('Bearer ')` (server.ts line 53). -/
def wellFormedBearer : Option String → Bool
  | none => false
  | some s => s.startsWith ("Bearer ")

/-- What the middleware layer decides before any handler body runs:
either no route matched, or authentication rejected the request with 401
(the handler is never invoked and the identity provider is consulted only
when a well-formed bearer token is present), or the handler is invoked
(with the verified user id on authenticated routes, none on open ones). -/
inductive GateResult where
  | noRoute
  | noToken
  | invalidToken
  | invokes (r : Route) (uid : Option String)
deriving DecidableEq, Repr

/-- The `authenticateUser` middleware (server.ts lines 46-74) composed with
route matching. `verify` models `supabase.auth.getUser`: the user id for a
valid token, none otherwise. Token extraction mirrors
`authHeader.split('Bearer ')[1]` on line 58. -/
def gate (m : Method) (path : List String) (authHeader : Option String)
    (verify : String → Option String) : GateResult :=
  match matchRoute m path with
  | none => .noRoute
  | some r =>
    if requiresAuth r then
      match authHeader with
      | none => .noToken
      | some hdr =>
        if hdr.startsWith ("Bearer ") then
          match verify ((hdr.splitOn ("Bearer ")).getD 1 ("")) with
          | none => .invalidToken
          | some uid => .invokes r (some uid)
        else .noToken
    else .invokes r none

/-- HTTP status fixed by the middleware layer alone (401s from the auth
guard); `none` when a handler body determines the status. -/
def gateStatus : GateResult → Option Nat
  | .noRoute => some 404
  | .noToken => some 401
  | .invalidToken => some 401
  | .invokes _ _ => none

/-! ## Tracks: publish, delete, feed -/

/-- A row of the `tracks` table (the fields these handlers consult). -/
structure TrackRow where
  id : String
  user_id : String
  is_published : Bool
deriving DecidableEq, Repr

/-- A row of the `published_tracks` join table. -/
structure PubRow where
  track_id : String
  user_id : String
  published_at : Nat
deriving DecidableEq, Repr

/-- `.from('tracks').select('user_id').eq('id', trackId).single()`. -/
def findTrack (tracks : List TrackRow) (tid : String) : Option TrackRow :=
  tracks.find? (fun t => t.id == tid)

/-- Result of DELETE /api/tracks/:trackId. -/
structure DeleteResult where
  status : Nat
  tracks : List TrackRow
deriving DecidableEq, Repr

/-- The DELETE /api/tracks/:trackId handler (server.ts lines 470-497).
The ownership test is the source's `track?.user_id !== req.user!.id`:
a missing row gives `undefined !== uid`, hence 403. -/
def deleteTrackHandler (tracks : List TrackRow) (uid tid : String) : DeleteResult :=
  if (findTrack tracks tid).map TrackRow.user_id ≠ some uid then
    ⟨403, tracks⟩
  else
    ⟨200, tracks.filter (fun t => t.id != tid)⟩

/-- Result of POST /api/tracks/:trackId/publish. -/
structure PublishResult where
  status : Nat
  tracks : List TrackRow
  published : List PubRow
deriving DecidableEq, Repr

/-- The POST /api/tracks/:trackId/publish handler (server.ts lines 396-427).
Ownership is `track?.user_id !== req.user!.id` as in delete. Neither store
write's result is inspected: `updateOk` and `insertOk` are the oracles for
whether each write lands, and the response is 200 either way. The insert
always appends a fresh `published_tracks` row — there is no check of
`is_published` or of an existing join row. `now` is the row's
database-assigned publish timestamp. -/
def publishTrackHandler (tracks : List TrackRow) (published : List PubRow)
    (uid tid : String) (updateOk insertOk : Bool) (now : Nat) : PublishResult :=
  if (findTrack tracks tid).map TrackRow.user_id ≠ some uid then
    ⟨403, tracks, published⟩
  else
    let tracks2 :=
      if updateOk then
        tracks.map (fun t => if t.id == tid then { t with is_published := true } else t)
      else tracks
    let published2 := if insertOk then published ++ [⟨tid, uid, now⟩] else published
    ⟨200, tracks2, published2⟩

/-- Ordering used by the feed query: `published_at` descending. -/
def pubGe (a b : PubRow) : Prop := b.published_at ≤ a.published_at

instance : DecidableRel pubGe := fun a b => Nat.decLe b.published_at a.published_at

/-- The feed query (server.ts lines 373-384): `published_tracks` ordered by
`published_at` descending, limited to 25, joined to the track (here: its id). -/
def feedTracks (published : List PubRow) : List String :=
  ((published.insertionSort pubGe).take 25).map PubRow.track_id

/-- Result of GET /api/feed; `storeCalled` records that the handler issues
its store read unconditionally (there is no auth guard on this route). -/
structure FeedResult where
  status : Nat
  storeCalled : Bool
  tracks : List String
deriving DecidableEq, Repr

/-- The GET /api/feed handler (server.ts lines 371-393); `storeOk` is the
oracle for the select succeeding. -/
def feedHandler (published : List PubRow) (storeOk : Bool) : FeedResult :=
  if storeOk then ⟨200, true, feedTracks published⟩ else ⟨500, true, []⟩

/-! ## Like toggle -/

/-- State touched by the like toggle: the `track_likes` join rows and the
per-track `likes` counter maintained by the increment/decrement RPCs. -/
structure LikeState where
  likes : List (String × String)
  likeCount : String → Int

/-- The POST /api/tracks/:trackId/like handler (server.ts lines 430-467):
if a (user, track) join row exists, delete it and decrement the counter,
responding `liked: false`; otherwise insert it and increment, responding
`liked: true`. -/
def toggleLike (st : LikeState) (uid tid : String) : LikeState × Bool :=
  if (uid, tid) ∈ st.likes then
    (⟨st.likes.filter (fun p => p ≠ (uid, tid)),
      fun t => if t = tid then st.likeCount t - 1 else st.likeCount t⟩, false)
  else
    (⟨st.likes ++ [(uid, tid)],
      fun t => if t = tid then st.likeCount t + 1 else st.likeCount t⟩, true)

/-! ## Profile update -/

/-- The fields deleted from the patch body at server.ts lines 349-352. -/
def strippedFields : List String := ["id", "email", "total_points", "used_points_today"]

/-- `{...req.body}` followed by the four `delete updates.x` statements:
drop the protected keys, keep everything else. -/
def sanitizeUpdates (body : List (String × String)) : List (String × String) :=
  body.filter (fun kv => !(strippedFields.contains kv.1))

/-- Read a field of a row held as a JSON-object-like association list. -/
def getField (row : List (String × String)) (k : String) : Option String :=
  (row.find? (fun kv => kv.1 == k)).map (fun kv => kv.2)

/-- Set one column of the row (replace if present, add if absent), as the
store's update does per field. -/
def setField (row : List (String × String)) (k v : String) : List (String × String) :=
  if row.any (fun kv => kv.1 == k) then
    row.map (fun kv => if kv.1 == k then (k, v) else kv)
  else
    row ++ [(k, v)]

/-- `.update(updates)`: apply every field of the patch to the row. -/
def applyUpdates (row : List (String × String)) (updates : List (String × String)) :
    List (String × String) :=
  updates.foldl (fun r kv => setField r kv.1 kv.2) row

/-- The PATCH /api/profile handler's effect on the caller's row
(server.ts lines 344-368): strip the protected fields, apply the rest. -/
def patchProfileRow (row : List (String × String)) (body : List (String × String)) :
    List (String × String) :=
  applyUpdates row (sanitizeUpdates body)

/-! ## Claim theorems -/

/-- Claim C1: for every authenticated generation request by a user whose
used-today count is at least the daily quota resolved from the fixed plan
table (free=2, starter=10, pro=25, unlimited=100; unknown plans resolve
to 2), the generate-music endpoint responds 403 reporting that limit and
the used count, and no vendor generation call is made. -/
theorem C1_daily_limit_403 (users : List UserRow) (uid : String) (body : GenBody)
    (vendor : VendorOutcome) (uf : Bool) (user : UserRow)
    (hfind : findUser users uid = some user)
    (hused : (dailyLimit user.current_plan : Int) ≤ user.used_points_today) :
    (generateMusic users uid body vendor uf).status = 403 ∧
    (generateMusic users uid body vendor uf).resp =
      GenResp.dailyLimitReached (dailyLimit user.current_plan) user.used_points_today ∧
    (generateMusic users uid body vendor uf).vendorReq = none ∧
    dailyLimit ("free") = 2 ∧ dailyLimit ("starter") = 10 ∧
    dailyLimit ("pro") = 25 ∧ dailyLimit ("unlimited") = 100 ∧
    (∀ p, p ≠ ("free") → p ≠ ("starter") → p ≠ ("pro") → p ≠ ("unlimited") →
      dailyLimit p = 2) := by
  have hgen : generateMusic users uid body vendor uf =
      ⟨403, .dailyLimitReached (dailyLimit user.current_plan) user.used_points_today,
        none, users⟩ := by
    unfold generateMusic
    rw [hfind]
    simp [hused]
  refine ⟨by rw [hgen], by rw [hgen], by rw [hgen],
    by decide, by decide, by decide, by decide, ?_⟩
  intro p h1 h2 h3 h4
  have e1 : ((("free" : String), (2 : Nat)).1 == p) = false :=
    beq_eq_false_iff_ne.mpr (Ne.symm h1)
  have e2 : ((("starter" : String), (10 : Nat)).1 == p) = false :=
    beq_eq_false_iff_ne.mpr (Ne.symm h2)
  have e3 : ((("pro" : String), (25 : Nat)).1 == p) = false :=
    beq_eq_false_iff_ne.mpr (Ne.symm h3)
  have e4 : ((("unlimited" : String), (100 : Nat)).1 == p) = false :=
    beq_eq_false_iff_ne.mpr (Ne.symm h4)
  unfold dailyLimit DAILY_LIMITS
  simp [List.find?, e1, e2, e3, e4]

/-- Witness for C1 at a concrete request: a free-plan user with 2 uses today. -/
theorem C1_daily_limit_403_witness :
    findUser [⟨("u1"), ("e"), ("free"), 5, 2, 0, ("d")⟩] ("u1") =
      some ⟨("u1"), ("e"), ("free"), 5, 2, 0, ("d")⟩ ∧
    ((dailyLimit ("free") : Int) ≤ 2) ∧
    ((generateMusic [⟨("u1"), ("e"), ("free"), 5, 2, 0, ("d")⟩] ("u1")
        ⟨("a"), ("b"), none, 30, true, none⟩ (.ok (some ("t1"))) false).status = 403 ∧
      (generateMusic [⟨("u1"), ("e"), ("free"), 5, 2, 0, ("d")⟩] ("u1")
        ⟨("a"), ("b"), none, 30, true, none⟩ (.ok (some ("t1"))) false).resp =
        GenResp.dailyLimitReached (dailyLimit ("free")) 2 ∧
      (generateMusic [⟨("u1"), ("e"), ("free"), 5, 2, 0, ("d")⟩] ("u1")
        ⟨("a"), ("b"), none, 30, true, none⟩ (.ok (some ("t1"))) false).vendorReq = none ∧
      dailyLimit ("free") = 2 ∧ dailyLimit ("starter") = 10 ∧
      dailyLimit ("pro") = 25 ∧ dailyLimit ("unlimited") = 100 ∧
      (∀ p, p ≠ ("free") → p ≠ ("starter") → p ≠ ("pro") → p ≠ ("unlimited") →
        dailyLimit p = 2)) :=
  ⟨by decide, by decide,
    C1_daily_limit_403 [⟨("u1"), ("e"), ("free"), 5, 2, 0, ("d")⟩] ("u1")
      ⟨("a"), ("b"), none, 30, true, none⟩ (.ok (some ("t1"))) false
      ⟨("u1"), ("e"), ("free"), 5, 2, 0, ("d")⟩ (by decide) (by decide)⟩

/-- Claim C2: for every authenticated generation request by a user whose
total remaining credit is ≤ 0, regardless of daily usage, the endpoint
responds 403 and no vendor call is made (the body is the no-credits error
when the daily limit is not also hit, and the daily-limit error otherwise;
either way the status is 403 and the vendor is not called). -/
theorem C2_no_credit_403 (users : List UserRow) (uid : String) (body : GenBody)
    (vendor : VendorOutcome) (uf : Bool) (user : UserRow)
    (hfind : findUser users uid = some user)
    (hcred : user.total_points ≤ 0) :
    (generateMusic users uid body vendor uf).status = 403 ∧
    (generateMusic users uid body vendor uf).vendorReq = none ∧
    (generateMusic users uid body vendor uf).users = users := by
  unfold generateMusic
  rw [hfind]
  by_cases hlim : (dailyLimit user.current_plan : Int) ≤ user.used_points_today
  · simp [hlim]
  · simp [hlim, hcred]

/-- Witness for C2 at a concrete request: a user with 0 credits and 0 uses. -/
theorem C2_no_credit_403_witness :
    findUser [⟨("u1"), ("e"), ("pro"), 0, 0, 0, ("d")⟩] ("u1") =
      some ⟨("u1"), ("e"), ("pro"), 0, 0, 0, ("d")⟩ ∧
    ((⟨("u1"), ("e"), ("pro"), 0, 0, 0, ("d")⟩ : UserRow).total_points ≤ 0) ∧
    ((generateMusic [⟨("u1"), ("e"), ("pro"), 0, 0, 0, ("d")⟩] ("u1")
        ⟨("a"), ("b"), none, 30, true, none⟩ (.ok (some ("t1"))) false).status = 403 ∧
      (generateMusic [⟨("u1"), ("e"), ("pro"), 0, 0, 0, ("d")⟩] ("u1")
        ⟨("a"), ("b"), none, 30, true, none⟩ (.ok (some ("t1"))) false).vendorReq = none ∧
      (generateMusic [⟨("u1"), ("e"), ("pro"), 0, 0, 0, ("d")⟩] ("u1")
        ⟨("a"), ("b"), none, 30, true, none⟩ (.ok (some ("t1"))) false).users =
        [⟨("u1"), ("e"), ("pro"), 0, 0, 0, ("d")⟩]) :=
  ⟨by decide, by decide,
    C2_no_credit_403 [⟨("u1"), ("e"), ("pro"), 0, 0, 0, ("d")⟩] ("u1")
      ⟨("a"), ("b"), none, 30, true, none⟩ (.ok (some ("t1"))) false
      ⟨("u1"), ("e"), ("pro"), 0, 0, 0, ("d")⟩ (by decide) (by decide)⟩

/-- Helper: on the success path (user found, both checks pass, vendor returns
a task id), the whole result of the generate-music handler. -/
theorem generateMusic_success_eq (users : List UserRow) (uid : String) (body : GenBody)
    (tid : String) (uf : Bool) (user : UserRow)
    (hfind : findUser users uid = some user)
    (hlim : user.used_points_today < (dailyLimit user.current_plan : Int))
    (hpos : 0 < user.total_points) :
    generateMusic users uid body (.ok (some tid)) uf =
      ⟨200, .success tid (user.total_points - 1),
        some ⟨body.isInstrumental, sunoPrompt body,
          body.genre ++ (", ") ++ body.mood,
          body.genre ++ (" ") ++ body.mood ++ (" Track")⟩,
        if uf then users
        else updateUserRow users uid (fun u =>
          { u with
            total_points := user.total_points - 1,
            used_points_today := user.used_points_today + 1,
            total_generations := user.total_generations + 1 })⟩ := by
  unfold generateMusic
  rw [hfind]
  simp [not_le.mpr hlim, not_le.mpr hpos]

/-- Claim C3: when the vendor call succeeds and returns a task id, the
response is 200 and carries that task id together with
`remaining_credits = preDecrementCredits - 1`, computed from the user row
read before the call — the response is identical whether or not the
subsequent store update lands, so nothing is re-read from the store. -/
theorem C3_success_remaining_credits (users : List UserRow) (uid : String)
    (body : GenBody) (tid : String) (uf : Bool) (user : UserRow)
    (hfind : findUser users uid = some user)
    (hlim : user.used_points_today < (dailyLimit user.current_plan : Int))
    (hpos : 0 < user.total_points) :
    (generateMusic users uid body (.ok (some tid)) uf).status = 200 ∧
    (generateMusic users uid body (.ok (some tid)) uf).resp =
      GenResp.success tid (user.total_points - 1) ∧
    (generateMusic users uid body (.ok (some tid)) true).resp =
      (generateMusic users uid body (.ok (some tid)) false).resp := by
  rw [generateMusic_success_eq users uid body tid uf user hfind hlim hpos,
    generateMusic_success_eq users uid body tid true user hfind hlim hpos,
    generateMusic_success_eq users uid body tid false user hfind hlim hpos]
  exact ⟨rfl, rfl, rfl⟩

/-- Witness for C3: a concrete successful generation by a starter-plan user
with 5 credits; the response reports 4 remaining. -/
theorem C3_success_remaining_credits_witness :
    findUser [⟨("u1"), ("e"), ("starter"), 5, 1, 7, ("d")⟩] ("u1") =
      some ⟨("u1"), ("e"), ("starter"), 5, 1, 7, ("d")⟩ ∧
    ((1 : Int) < (dailyLimit ("starter") : Int)) ∧
    ((0 : Int) < 5) ∧
    ((generateMusic [⟨("u1"), ("e"), ("starter"), 5, 1, 7, ("d")⟩] ("u1")
        ⟨("a"), ("b"), none, 30, true, none⟩ (.ok (some ("t1"))) false).status = 200 ∧
      (generateMusic [⟨("u1"), ("e"), ("starter"), 5, 1, 7, ("d")⟩] ("u1")
        ⟨("a"), ("b"), none, 30, true, none⟩ (.ok (some ("t1"))) false).resp =
        GenResp.success ("t1") 4 ∧
      (generateMusic [⟨("u1"), ("e"), ("starter"), 5, 1, 7, ("d")⟩] ("u1")
        ⟨("a"), ("b"), none, 30, true, none⟩ (.ok (some ("t1"))) true).resp =
      (generateMusic [⟨("u1"), ("e"), ("starter"), 5, 1, 7, ("d")⟩] ("u1")
        ⟨("a"), ("b"), none, 30, true, none⟩ (.ok (some ("t1"))) false).resp) :=
  ⟨by decide, by decide, by decide,
    C3_success_remaining_credits [⟨("u1"), ("e"), ("starter"), 5, 1, 7, ("d")⟩] ("u1")
      ⟨("a"), ("b"), none, 30, true, none⟩ ("t1") false
      ⟨("u1"), ("e"), ("starter"), 5, 1, 7, ("d")⟩ (by decide) (by decide) (by decide)⟩

/-- Claim C4: when the vendor call succeeds but the single store update
(decrement credit, increment used-today and lifetime count) fails, the
client still receives the 200 success response with the task id, identical
to the response when the update lands, while the stored users table is left
unchanged — the failure is never reflected in the response. -/
theorem C4_update_failure_hidden (users : List UserRow) (uid : String)
    (body : GenBody) (tid : String) (user : UserRow)
    (hfind : findUser users uid = some user)
    (hlim : user.used_points_today < (dailyLimit user.current_plan : Int))
    (hpos : 0 < user.total_points) :
    (generateMusic users uid body (.ok (some tid)) true).status = 200 ∧
    (generateMusic users uid body (.ok (some tid)) true).resp =
      GenResp.success tid (user.total_points - 1) ∧
    (generateMusic users uid body (.ok (some tid)) true).users = users ∧
    (generateMusic users uid body (.ok (some tid)) true).resp =
      (generateMusic users uid body (.ok (some tid)) false).resp ∧
    (generateMusic users uid body (.ok (some tid)) true).status =
      (generateMusic users uid body (.ok (some tid)) false).status := by
  rw [generateMusic_success_eq users uid body tid true user hfind hlim hpos,
    generateMusic_success_eq users uid body tid false user hfind hlim hpos]
  exact ⟨rfl, rfl, rfl, rfl, rfl⟩

/-- Witness for C4: the concrete update-fails run still answers 200 with the
task id, and the stored row keeps its 5 credits. -/
theorem C4_update_failure_hidden_witness :
    findUser [⟨("u1"), ("e"), ("starter"), 5, 1, 7, ("d")⟩] ("u1") =
      some ⟨("u1"), ("e"), ("starter"), 5, 1, 7, ("d")⟩ ∧
    ((1 : Int) < (dailyLimit ("starter") : Int)) ∧
    ((0 : Int) < 5) ∧
    ((generateMusic [⟨("u1"), ("e"), ("starter"), 5, 1, 7, ("d")⟩] ("u1")
        ⟨("a"), ("b"), none, 30, true, none⟩ (.ok (some ("t1"))) true).status = 200 ∧
      (generateMusic [⟨("u1"), ("e"), ("starter"), 5, 1, 7, ("d")⟩] ("u1")
        ⟨("a"), ("b"), none, 30, true, none⟩ (.ok (some ("t1"))) true).resp =
        GenResp.success ("t1") 4 ∧
      (generateMusic [⟨("u1"), ("e"), ("starter"), 5, 1, 7, ("d")⟩] ("u1")
        ⟨("a"), ("b"), none, 30, true, none⟩ (.ok (some ("t1"))) true).users =
        [⟨("u1"), ("e"), ("starter"), 5, 1, 7, ("d")⟩] ∧
      (generateMusic [⟨("u1"), ("e"), ("starter"), 5, 1, 7, ("d")⟩] ("u1")
        ⟨("a"), ("b"), none, 30, true, none⟩ (.ok (some ("t1"))) true).resp =
      (generateMusic [⟨("u1"), ("e"), ("starter"), 5, 1, 7, ("d")⟩] ("u1")
        ⟨("a"), ("b"), none, 30, true, none⟩ (.ok (some ("t1"))) false).resp ∧
      (generateMusic [⟨("u1"), ("e"), ("starter"), 5, 1, 7, ("d")⟩] ("u1")
        ⟨("a"), ("b"), none, 30, true, none⟩ (.ok (some ("t1"))) true).status =
      (generateMusic [⟨("u1"), ("e"), ("starter"), 5, 1, 7, ("d")⟩] ("u1")
        ⟨("a"), ("b"), none, 30, true, none⟩ (.ok (some ("t1"))) false).status) :=
  ⟨by decide, by decide, by decide,
    C4_update_failure_hidden [⟨("u1"), ("e"), ("starter"), 5, 1, 7, ("d")⟩] ("u1")
      ⟨("a"), ("b"), none, 30, true, none⟩ ("t1")
      ⟨("u1"), ("e"), ("starter"), 5, 1, 7, ("d")⟩ (by decide) (by decide) (by decide)⟩

/-- Claim C5 counterexample: GET /api/feed is a path under /api/ registered
without the auth guard. With no Authorization header at all the gate still
invokes the feed handler (not a 401), and that handler issues its store
read unconditionally and answers 200. -/
theorem C5_counterexample :
    wellFormedBearer none = false ∧
    [("api"), ("feed")].headD ("") = ("api") ∧
    gate .get [("api"), ("feed")] none (fun _ => none) = .invokes .feed none ∧
    gateStatus (gate .get [("api"), ("feed")] none (fun _ => none)) ≠ some 401 ∧
    (feedHandler [] true).storeCalled = true ∧
    (feedHandler [] true).status = 200 := by
  decide

/-- Claim C5 (amended): for every request matching an /api/ route that is
registered with the auth guard — all of them except the public feed — a
missing or malformed Authorization header yields the 401 no-token response;
the handler is never invoked, and the identity provider is not consulted
(the gate's outcome does not depend on the verifier at all). -/
theorem C5_auth_gate_401 (m : Method) (path : List String) (h : Option String)
    (verify : String → Option String) (r : Route)
    (hmatch : matchRoute m path = some r)
    (hauth : requiresAuth r = true)
    (hbad : wellFormedBearer h = false) :
    gate m path h verify = GateResult.noToken ∧
    gateStatus (gate m path h verify) = some 401 ∧
    (∀ v2 : String → Option String, gate m path h v2 = GateResult.noToken) := by
  have hall : ∀ v2 : String → Option String, gate m path h v2 = GateResult.noToken := by
    intro v2
    unfold gate
    rw [hmatch]
    cases h with
    | none => simp [hauth]
    | some hdr =>
        have hsw : hdr.startsWith ("Bearer ") = false := hbad
        simp [hauth, hsw]
  exact ⟨hall verify, by rw [hall verify]; rfl, hall⟩

/-- Witness for C5 (amended): POST /api/generate-music with no header. -/
theorem C5_auth_gate_401_witness :
    matchRoute .post [("api"), ("generate-music")] = some .generateMusicR ∧
    requiresAuth .generateMusicR = true ∧
    wellFormedBearer none = false ∧
    (gate .post [("api"), ("generate-music")] none (fun _ => none) =
        GateResult.noToken ∧
      gateStatus (gate .post [("api"), ("generate-music")] none (fun _ => none)) =
        some 401 ∧
      (∀ v2 : String → Option String,
        gate .post [("api"), ("generate-music")] none v2 = GateResult.noToken)) :=
  ⟨by decide, by decide, by decide,
    C5_auth_gate_401 .post [("api"), ("generate-music")] none (fun _ => none)
      .generateMusicR (by decide) (by decide) (by decide)⟩

/-- Claim C6 counterexample: with an empty tracks table (no row for track
"t1"), both the delete and the publish handlers answer 403 "Not your track",
not the 404 the claim asserts — the ownership test `track?.user_id !==
req.user!.id` is true for a missing row. -/
theorem C6_counterexample :
    findTrack [] ("t1") = none ∧
    (deleteTrackHandler [] ("u1") ("t1")).status = 403 ∧
    (deleteTrackHandler [] ("u1") ("t1")).status ≠ 404 ∧
    (publishTrackHandler [] [] ("u1") ("t1") true true 0).status = 403 ∧
    (publishTrackHandler [] [] ("u1") ("t1") true true 0).status ≠ 404 := by
  decide

/-- Claim C6 (amended): for every delete-track or publish-track request whose
track id has no corresponding row in the store, the response is 403 "Not
your track" — the same response as an ownership mismatch — and no mutation
is performed; the missing row is not distinguished from a mismatch and no
404 is produced (only the generation endpoint's missing user row maps to 404). -/
theorem C6_missing_track_403 (tracks : List TrackRow) (published : List PubRow)
    (uid tid : String) (uOk iOk : Bool) (now : Nat)
    (hmiss : findTrack tracks tid = none) :
    (deleteTrackHandler tracks uid tid).status = 403 ∧
    (deleteTrackHandler tracks uid tid).tracks = tracks ∧
    (publishTrackHandler tracks published uid tid uOk iOk now).status = 403 ∧
    (publishTrackHandler tracks published uid tid uOk iOk now).tracks = tracks ∧
    (publishTrackHandler tracks published uid tid uOk iOk now).published =
      published := by
  unfold deleteTrackHandler publishTrackHandler
  rw [hmiss]
  simp

/-- Witness for C6 (amended) on the empty store. -/
theorem C6_missing_track_403_witness :
    findTrack [] ("t1") = none ∧
    ((deleteTrackHandler [] ("u1") ("t1")).status = 403 ∧
      (deleteTrackHandler [] ("u1") ("t1")).tracks = [] ∧
      (publishTrackHandler [] [] ("u1") ("t1") false true 3).status = 403 ∧
      (publishTrackHandler [] [] ("u1") ("t1") false true 3).tracks = [] ∧
      (publishTrackHandler [] [] ("u1") ("t1") false true 3).published = []) :=
  ⟨by decide, C6_missing_track_403 [] [] ("u1") ("t1") false true 3 (by decide)⟩

/-- Claim C7 counterexample: with custom lyrics `" H "` supplied, the prompt
sent to the vendor is the trimmed string `"H"`, not the lyrics verbatim. -/
theorem C7_counterexample :
    (generateMusic [⟨("u1"), ("e"), ("free"), 5, 0, 0, ("d")⟩] ("u1")
        ⟨("a"), ("b"), none, 30, true, some (" H ")⟩
        (.ok (some ("t1"))) false).vendorReq.map VendorRequest.prompt =
      some ("H") ∧
    (generateMusic [⟨("u1"), ("e"), ("free"), 5, 0, 0, ("d")⟩] ("u1")
        ⟨("a"), ("b"), none, 30, true, some (" H ")⟩
        (.ok (some ("t1"))) false).vendorReq.map VendorRequest.prompt ≠
      some (" H ") := by
  decide

/-- Claim C7 (amended): for every generation request that reaches the vendor
call, the prompt sent is the custom lyrics trimmed of surrounding whitespace
when custom lyrics are supplied and nonempty after trimming; otherwise — no
custom lyrics, or whitespace-only custom lyrics — it is the trimmed template
combining genre, mood and the optional free-text prompt. -/
theorem C7_vendor_prompt (users : List UserRow) (uid : String) (body : GenBody)
    (vendor : VendorOutcome) (uf : Bool) (user : UserRow)
    (hfind : findUser users uid = some user)
    (hlim : user.used_points_today < (dailyLimit user.current_plan : Int))
    (hpos : 0 < user.total_points) :
    (generateMusic users uid body vendor uf).vendorReq.map VendorRequest.prompt =
      some (match body.customLyrics with
        | some cl =>
            if jsTrim cl = ("") then
              jsTrim (body.genre ++ (" music with ") ++ body.mood ++ (" vibes. ") ++
                body.prompt.getD (""))
            else jsTrim cl
        | none =>
            jsTrim (body.genre ++ (" music with ") ++ body.mood ++ (" vibes. ") ++
              body.prompt.getD (""))) := by
  have hprompt : sunoPrompt body =
      (match body.customLyrics with
        | some cl =>
            if jsTrim cl = ("") then
              jsTrim (body.genre ++ (" music with ") ++ body.mood ++ (" vibes. ") ++
                body.prompt.getD (""))
            else jsTrim cl
        | none =>
            jsTrim (body.genre ++ (" music with ") ++ body.mood ++ (" vibes. ") ++
              body.prompt.getD (""))) := by
    unfold sunoPrompt fullPromptOf
    cases body.customLyrics with
    | none => rfl
    | some cl => simp [beq_iff_eq]
  unfold generateMusic
  rw [hfind]
  cases vendor with
  | throws msg => simp [not_le.mpr hlim, not_le.mpr hpos, hprompt]
  | ok taskId =>
      cases taskId with
      | none => simp [not_le.mpr hlim, not_le.mpr hpos, hprompt]
      | some tid => simp [not_le.mpr hlim, not_le.mpr hpos, hprompt]

/-- Witness for C7 (amended): lyrics `" H "` produce the prompt `"H"`. -/
theorem C7_vendor_prompt_witness :
    findUser [⟨("u1"), ("e"), ("free"), 5, 0, 0, ("d")⟩] ("u1") =
      some ⟨("u1"), ("e"), ("free"), 5, 0, 0, ("d")⟩ ∧
    ((0 : Int) < (dailyLimit ("free") : Int)) ∧
    ((0 : Int) < 5) ∧
    (generateMusic [⟨("u1"), ("e"), ("free"), 5, 0, 0, ("d")⟩] ("u1")
        ⟨("a"), ("b"), none, 30, true, some (" H ")⟩
        (.ok (some ("t1"))) false).vendorReq.map VendorRequest.prompt =
      some (match some (" H ") with
        | some cl =>
            if jsTrim cl = ("") then
              jsTrim (("a") ++ (" music with ") ++ ("b") ++ (" vibes. ") ++
                (none : Option String).getD (""))
            else jsTrim cl
        | none =>
            jsTrim (("a") ++ (" music with ") ++ ("b") ++ (" vibes. ") ++
              (none : Option String).getD (""))) :=
  ⟨by decide, by decide, by decide,
    C7_vendor_prompt [⟨("u1"), ("e"), ("free"), 5, 0, 0, ("d")⟩] ("u1")
      ⟨("a"), ("b"), none, 30, true, some (" H ")⟩ (.ok (some ("t1"))) false
      ⟨("u1"), ("e"), ("free"), 5, 0, 0, ("d")⟩ (by decide) (by decide) (by decide)⟩

/-- Replacing the value at key `k'` in place leaves the read of a different
key `k` unchanged. -/
theorem getField_mapSet_ne (rest : List (String × String)) (k k' v : String)
    (hne : k ≠ k') :
    getField (rest.map (fun kv => if kv.1 == k' then (k', v) else kv)) k =
      getField rest k := by
  have hk'k : ((k' : String) == k) = false := beq_eq_false_iff_ne.mpr (Ne.symm hne)
  induction rest with
  | nil => rfl
  | cons kv tail ih =>
      unfold getField at ih ⊢
      simp only [List.map_cons, List.find?_cons]
      by_cases h : (kv.1 == k') = true
      · have h1 : kv.1 = k' := by simpa using h
        have h3 : (kv.1 == k) = false := by rw [h1]; exact hk'k
        simpa [h, h3, hk'k] using ih
      · have hb : (kv.1 == k') = false := by simpa using h
        by_cases hk : (kv.1 == k) = true
        · simp [hb, hk]
        · have hkb : (kv.1 == k) = false := by simpa using hk
          simpa [hb, hkb] using ih

/-- Reading a key other than the one just set is unchanged. -/
theorem getField_setField_ne (row : List (String × String)) (k k' v : String)
    (hne : k ≠ k') : getField (setField row k' v) k = getField row k := by
  unfold setField
  by_cases hany : row.any (fun kv => kv.1 == k') = true
  · rw [if_pos hany]
    exact getField_mapSet_ne row k k' v hne
  · rw [if_neg hany]
    unfold getField
    rw [List.find?_append]
    have h1 : List.find? (fun kv => kv.1 == k) [(k', v)] = none := by
      simp [List.find?, beq_eq_false_iff_ne.mpr (Ne.symm hne)]
    rw [h1]
    cases List.find? (fun kv => kv.1 == k) row <;> rfl

/-- Replacing the value at key `k` in place makes the read of `k` the new
value, provided some entry with key `k` exists. -/
theorem getField_mapSet_self (rest : List (String × String)) (k v : String)
    (hany : rest.any (fun kv => kv.1 == k) = true) :
    getField (rest.map (fun kv => if kv.1 == k then (k, v) else kv)) k =
      some v := by
  induction rest with
  | nil => simp at hany
  | cons kv tail ih =>
      unfold getField at ih ⊢
      simp only [List.map_cons, List.find?_cons]
      by_cases h : (kv.1 == k) = true
      · simp [h]
      · have hb : (kv.1 == k) = false := by simpa using h
        have htail : tail.any (fun kv => kv.1 == k) = true := by
          simpa [hb] using hany
        simpa [hb] using ih htail

/-- Reading the key just set gives the new value. -/
theorem getField_setField_self (row : List (String × String)) (k v : String) :
    getField (setField row k v) k = some v := by
  unfold setField
  by_cases hany : row.any (fun kv => kv.1 == k) = true
  · rw [if_pos hany]
    exact getField_mapSet_self row k v hany
  · rw [if_neg hany]
    unfold getField
    rw [List.find?_append]
    have hf : row.any (fun kv => kv.1 == k) = false := by
      cases hcase : row.any (fun kv => kv.1 == k) with
      | true => exact absurd hcase hany
      | false => rfl
    have hrow : List.find? (fun kv => kv.1 == k) row = none := by
      apply List.find?_eq_none.mpr
      intro x hx
      have := List.any_eq_false.mp hf x hx
      simp [this]
    rw [hrow]
    simp [List.find?]

/-- Applying updates none of which touch key `k` leaves `k` unchanged. -/
theorem getField_applyUpdates_notmem (updates : List (String × String))
    (row : List (String × String)) (k : String)
    (hnot : ∀ kv ∈ updates, kv.1 ≠ k) :
    getField (applyUpdates row updates) k = getField row k := by
  induction updates generalizing row with
  | nil => rfl
  | cons kv rest ih =>
      have h1 : kv.1 ≠ k := hnot kv (by simp)
      have h2 : ∀ x ∈ rest, x.1 ≠ k := fun x hx => hnot x (by simp [hx])
      unfold applyUpdates at ih ⊢
      simp only [List.foldl_cons]
      rw [ih (setField row kv.1 kv.2) h2]
      exact getField_setField_ne row k kv.1 kv.2 (fun he => h1 he.symm)

/-- Applying updates whose keys are distinct sets every listed key to its
listed value. -/
theorem getField_applyUpdates_mem (updates : List (String × String))
    (row : List (String × String)) (k v : String)
    (hnodup : (updates.map Prod.fst).Nodup) (hmem : (k, v) ∈ updates) :
    getField (applyUpdates row updates) k = some v := by
  induction updates generalizing row with
  | nil => simp at hmem
  | cons kv rest ih =>
      rcases List.mem_cons.mp hmem with heq | htail
      · subst heq
        have hrest : ∀ x ∈ rest, x.1 ≠ k := by
          intro x hx he
          have : k ∈ rest.map Prod.fst := he ▸ List.mem_map_of_mem Prod.fst hx
          exact (List.nodup_cons.mp hnodup).1 this
        unfold applyUpdates
        simp only [List.foldl_cons]
        have := getField_applyUpdates_notmem rest (setField row k v) k hrest
        unfold applyUpdates at this
        rw [this]
        exact getField_setField_self row k v
      · unfold applyUpdates at ih ⊢
        simp only [List.foldl_cons]
        exact ih (setField row kv.1 kv.2) (List.nodup_cons.mp hnodup).2 htail

/-- Claim C8: a profile-update request never applies the fields id, email,
total_points or used_points_today — those reads are unchanged on the stored
row — while every other field of the patch (whose keys, coming from a JSON
object, are distinct) is applied with its value; in particular both credit
fields are unchanged by any profile update. -/
theorem C8_profile_patch (row body : List (String × String))
    (hnodup : (body.map Prod.fst).Nodup) :
    getField (patchProfileRow row body) ("id") = getField row ("id") ∧
    getField (patchProfileRow row body) ("email") = getField row ("email") ∧
    getField (patchProfileRow row body) ("total_points") =
      getField row ("total_points") ∧
    getField (patchProfileRow row body) ("used_points_today") =
      getField row ("used_points_today") ∧
    (∀ k v, (k, v) ∈ body → strippedFields.contains k = false →
      getField (patchProfileRow row body) k = some v) := by
  have hstrip : ∀ k : String, strippedFields.contains k = true →
      getField (patchProfileRow row body) k = getField row k := by
    intro k hk
    unfold patchProfileRow
    apply getField_applyUpdates_notmem
    intro kv hkv he
    have hmem2 := List.mem_filter.mp hkv
    have hcontra : strippedFields.contains kv.1 = false := by
      simpa using hmem2.2
    rw [he, hk] at hcontra
    exact absurd hcontra (by decide)
  refine ⟨hstrip ("id") (by decide), hstrip ("email") (by decide),
    hstrip ("total_points") (by decide), hstrip ("used_points_today") (by decide),
    ?_⟩
  intro k v hmem hk
  unfold patchProfileRow
  apply getField_applyUpdates_mem
  · have hsub : List.Sublist (sanitizeUpdates body) body := by
      unfold sanitizeUpdates
      exact List.filter_sublist body
    exact (hsub.map Prod.fst).nodup hnodup
  · unfold sanitizeUpdates
    refine List.mem_filter.mpr ⟨hmem, ?_⟩
    show (!(strippedFields.contains k)) = true
    rw [hk]
    rfl

/-- Witness for C8: a patch setting display_name and trying to set
total_points; the name is applied, the credit field is untouched. -/
theorem C8_profile_patch_witness :
    (([(("display_name"), ("new")), (("total_points"), ("999"))] :
        List (String × String)).map Prod.fst).Nodup ∧
    (getField (patchProfileRow
        [(("id"), ("u1")), (("email"), ("e")), (("total_points"), ("5")),
          (("used_points_today"), ("1")), (("display_name"), ("old"))]
        [(("display_name"), ("new")), (("total_points"), ("999"))]) ("id") =
      getField [(("id"), ("u1")), (("email"), ("e")), (("total_points"), ("5")),
          (("used_points_today"), ("1")), (("display_name"), ("old"))] ("id") ∧
      getField (patchProfileRow
        [(("id"), ("u1")), (("email"), ("e")), (("total_points"), ("5")),
          (("used_points_today"), ("1")), (("display_name"), ("old"))]
        [(("display_name"), ("new")), (("total_points"), ("999"))]) ("email") =
      getField [(("id"), ("u1")), (("email"), ("e")), (("total_points"), ("5")),
          (("used_points_today"), ("1")), (("display_name"), ("old"))] ("email") ∧
      getField (patchProfileRow
        [(("id"), ("u1")), (("email"), ("e")), (("total_points"), ("5")),
          (("used_points_today"), ("1")), (("display_name"), ("old"))]
        [(("display_name"), ("new")), (("total_points"), ("999"))]) ("total_points") =
      getField [(("id"), ("u1")), (("email"), ("e")), (("total_points"), ("5")),
          (("used_points_today"), ("1")), (("display_name"), ("old"))] ("total_points") ∧
      getField (patchProfileRow
        [(("id"), ("u1")), (("email"), ("e")), (("total_points"), ("5")),
          (("used_points_today"), ("1")), (("display_name"), ("old"))]
        [(("display_name"), ("new")), (("total_points"), ("999"))]) ("used_points_today") =
      getField [(("id"), ("u1")), (("email"), ("e")), (("total_points"), ("5")),
          (("used_points_today"), ("1")), (("display_name"), ("old"))] ("used_points_today") ∧
      (∀ k v, (k, v) ∈ ([(("display_name"), ("new")), (("total_points"), ("999"))] :
          List (String × String)) →
        strippedFields.contains k = false →
        getField (patchProfileRow
          [(("id"), ("u1")), (("email"), ("e")), (("total_points"), ("5")),
            (("used_points_today"), ("1")), (("display_name"), ("old"))]
          [(("display_name"), ("new")), (("total_points"), ("999"))]) k = some v)) :=
  ⟨by decide,
    C8_profile_patch
      [(("id"), ("u1")), (("email"), ("e")), (("total_points"), ("5")),
        (("used_points_today"), ("1")), (("display_name"), ("old"))]
      [(("display_name"), ("new")), (("total_points"), ("999"))] (by decide)⟩

/-- Claim C9: each like-toggle flips the presence of the (user, track) join
row — absent→present answering liked=true, present→absent answering
liked=false — so toggling twice from the un-liked state answers (true,
false) and returns the join rows and the like counter to their original
state. -/
theorem C9_like_toggle (st : LikeState) (uid tid : String)
    (h : (uid, tid) ∉ st.likes) :
    (toggleLike st uid tid).2 = true ∧
    (toggleLike (toggleLike st uid tid).1 uid tid).2 = false ∧
    (toggleLike (toggleLike st uid tid).1 uid tid).1.likes = st.likes ∧
    (toggleLike (toggleLike st uid tid).1 uid tid).1.likeCount = st.likeCount ∧
    (∀ s : LikeState, ∀ u t : String,
      ((u, t) ∈ (toggleLike s u t).1.likes ↔ ((u, t) ∈ s.likes → False))) := by
  have h1 : toggleLike st uid tid =
      (⟨st.likes ++ [(uid, tid)],
        fun t => if t = tid then st.likeCount t + 1 else st.likeCount t⟩, true) := by
    unfold toggleLike
    rw [if_neg h]
  have hmem2 : (uid, tid) ∈ st.likes ++ [(uid, tid)] := by simp
  have h2 : toggleLike
      (⟨st.likes ++ [(uid, tid)],
        fun t => if t = tid then st.likeCount t + 1 else st.likeCount t⟩ : LikeState)
      uid tid =
      (⟨(st.likes ++ [(uid, tid)]).filter (fun p => p ≠ (uid, tid)),
        fun t => if t = tid then
            (if t = tid then st.likeCount t + 1 else st.likeCount t) - 1
          else (if t = tid then st.likeCount t + 1 else st.likeCount t)⟩, false) := by
    unfold toggleLike
    rw [if_pos hmem2]
  have hfilter : (st.likes ++ [(uid, tid)]).filter (fun p => p ≠ (uid, tid)) =
      st.likes := by
    rw [List.filter_append]
    have ha : st.likes.filter (fun p => p ≠ (uid, tid)) = st.likes := by
      apply List.filter_eq_self.mpr
      intro a ha
      exact decide_eq_true (fun he => h (he ▸ ha))
    have hb : ([(uid, tid)] : List (String × String)).filter
        (fun p => p ≠ (uid, tid)) = [] := by simp
    rw [ha, hb, List.append_nil]
  have hcount : (fun t => if t = tid then
        (if t = tid then st.likeCount t + 1 else st.likeCount t) - 1
      else (if t = tid then st.likeCount t + 1 else st.likeCount t)) =
      st.likeCount := by
    funext t
    by_cases ht : t = tid
    · simp [ht]
    · simp [ht]
  refine ⟨by rw [h1], by rw [h1, h2], by rw [h1, h2]; exact hfilter,
    by rw [h1, h2]; exact hcount, ?_⟩
  intro s u t
  by_cases hm : (u, t) ∈ s.likes
  · have : toggleLike s u t =
        (⟨s.likes.filter (fun p => p ≠ (u, t)),
          fun x => if x = t then s.likeCount x - 1 else s.likeCount x⟩, false) := by
      unfold toggleLike
      rw [if_pos hm]
    rw [this]
    simp [hm, List.mem_filter]
  · have : toggleLike s u t =
        (⟨s.likes ++ [(u, t)],
          fun x => if x = t then s.likeCount x + 1 else s.likeCount x⟩, true) := by
      unfold toggleLike
      rw [if_neg hm]
    rw [this]
    simp [hm]

/-- Witness for C9 starting from the empty like table. -/
theorem C9_like_toggle_witness :
    (("u1", "t1") ∉ (⟨[], fun _ => 0⟩ : LikeState).likes) ∧
    ((toggleLike ⟨[], fun _ => 0⟩ ("u1") ("t1")).2 = true ∧
      (toggleLike (toggleLike ⟨[], fun _ => 0⟩ ("u1") ("t1")).1 ("u1") ("t1")).2 = false ∧
      (toggleLike (toggleLike ⟨[], fun _ => 0⟩ ("u1") ("t1")).1 ("u1") ("t1")).1.likes =
        (⟨[], fun _ => 0⟩ : LikeState).likes ∧
      (toggleLike (toggleLike ⟨[], fun _ => 0⟩ ("u1") ("t1")).1 ("u1") ("t1")).1.likeCount =
        (⟨[], fun _ => 0⟩ : LikeState).likeCount ∧
      (∀ s : LikeState, ∀ u t : String,
        ((u, t) ∈ (toggleLike s u t).1.likes ↔ ((u, t) ∈ s.likes → False)))) :=
  ⟨by decide, C9_like_toggle ⟨[], fun _ => 0⟩ ("u1") ("t1") (by decide)⟩

/-- Helper: the feed lists a track id exactly as often as `published_tracks`
holds a join row for it, whenever the table fits inside the 25-row limit. -/
theorem feedTracks_count (pub : List PubRow) (tid : String)
    (hlen : pub.length ≤ 25) :
    (feedTracks pub).count tid = pub.countP (fun p => p.track_id == tid) := by
  unfold feedTracks
  rw [List.take_of_length_le (by rw [List.length_insertionSort]; exact hlen)]
  rw [List.count_eq_countP, List.countP_map]
  exact (List.perm_insertionSort pubGe pub).countP_eq _

/-- Claim C10: the publish endpoint checks neither of its two store writes —
for every publish request by the track's owner it answers 200 regardless of
whether the is_published update or the published_tracks insert succeeded —
and whenever the insert lands it unconditionally appends another join row
(even if the track is already published; no is_published or existing-row
check guards it), so a track with two join rows appears twice in the public
feed. -/
theorem C10_publish_unchecked (tracks : List TrackRow) (published : List PubRow)
    (uid tid : String) (t : TrackRow)
    (hfind : findTrack tracks tid = some t) (hown : t.user_id = uid) :
    (∀ uOk iOk : Bool, ∀ now : Nat,
      (publishTrackHandler tracks published uid tid uOk iOk now).status = 200) ∧
    (∀ uOk : Bool, ∀ now : Nat,
      (publishTrackHandler tracks published uid tid uOk true now).published =
        published ++ [⟨tid, uid, now⟩]) ∧
    (∀ uOk : Bool, ∀ now : Nat,
      (publishTrackHandler tracks published uid tid uOk false now).published =
        published) ∧
    (∀ pub : List PubRow, pub.length ≤ 25 →
      2 ≤ pub.countP (fun p => p.track_id == tid) →
      2 ≤ (feedTracks pub).count tid) := by
  have howner : (findTrack tracks tid).map TrackRow.user_id = some uid := by
    rw [hfind]
    simp [hown]
  have hcond : ¬((findTrack tracks tid).map TrackRow.user_id ≠ some uid) :=
    fun hc => hc howner
  refine ⟨?_, ?_, ?_, ?_⟩
  · intro uOk iOk now
    unfold publishTrackHandler
    rw [if_neg hcond]
  · intro uOk now
    unfold publishTrackHandler
    rw [if_neg hcond]
    simp
  · intro uOk now
    unfold publishTrackHandler
    rw [if_neg hcond]
    simp
  · intro pub hlen h2
    rw [feedTracks_count pub tid hlen]
    exact h2

/-- Witness for C10: an already-published track owned by the caller; two
join rows for it make the feed list it twice. -/
theorem C10_publish_unchecked_witness :
    findTrack [⟨("t1"), ("u1"), true⟩] ("t1") = some ⟨("t1"), ("u1"), true⟩ ∧
    ((⟨("t1"), ("u1"), true⟩ : TrackRow).user_id = ("u1")) ∧
    ((∀ uOk iOk : Bool, ∀ now : Nat,
        (publishTrackHandler [⟨("t1"), ("u1"), true⟩] [⟨("t1"), ("u1"), 5⟩]
          ("u1") ("t1") uOk iOk now).status = 200) ∧
      (∀ uOk : Bool, ∀ now : Nat,
        (publishTrackHandler [⟨("t1"), ("u1"), true⟩] [⟨("t1"), ("u1"), 5⟩]
          ("u1") ("t1") uOk true now).published =
        [⟨("t1"), ("u1"), 5⟩] ++ [⟨("t1"), ("u1"), now⟩]) ∧
      (∀ uOk : Bool, ∀ now : Nat,
        (publishTrackHandler [⟨("t1"), ("u1"), true⟩] [⟨("t1"), ("u1"), 5⟩]
          ("u1") ("t1") uOk false now).published = [⟨("t1"), ("u1"), 5⟩]) ∧
      (∀ pub : List PubRow, pub.length ≤ 25 →
        2 ≤ pub.countP (fun p => p.track_id == ("t1")) →
        2 ≤ (feedTracks pub).count ("t1"))) :=
  ⟨by decide, by decide,
    C10_publish_unchecked [⟨("t1"), ("u1"), true⟩] [⟨("t1"), ("u1"), 5⟩]
      ("u1") ("t1") ⟨("t1"), ("u1"), true⟩ (by decide) (by decide)⟩

end MusicGen
